import Mathlib

/-!
Verification of the Wyatt-STM core (src/wstm/stm.h) and the conflict-profiling
recorder (src/src/conflict_profiling_internal.cpp) against its specification.

The embedding is shallow: each C++ function that a claim touches is translated
into a Lean function over explicit state.  Machine integers (`size_t`,
`uint64_t`) become `Nat` (no overflow is relevant to any claim), `const char*`
name pointers become `Option Nat` (a pointer identity or null), and C++
exceptions become `Bool`/`Option` results.  Template value types become a type
parameter `α`, matching `Type_t` in the source.
-/

namespace WSTM

/-- Internal::WValue (stm.h lines 124-144): a version paired with a payload.
`m_version` is the `size_t` version from `WValueBase`, `m_value` the stored
value of the template parameter type. -/
structure WValue (α : Type) where
  m_version : Nat
  m_value : α
  deriving Repr, DecidableEq

/-- Internal::WVarCore (stm.h lines 153-185): the shared core of one
transactional variable, holding the current `WValue`. -/
structure WVarCore (α : Type) where
  m_value_p : WValue α
  deriving Repr, DecidableEq

/-- WVarCore::Validate (stm.h lines 164-168): true iff the snapshot's version
equals the current value's version.  The C++ argument is a `WValueBase`
(version only); only the version field is consulted here. -/
def WVarCore.Validate (core : WVarCore α) (val : WValue α) : Bool :=
  val.m_version == core.m_value_p.m_version

/-- WVarCore::Commit (stm.h lines 170-180): replaces the held value with the
given one and returns the prior value.  Note the source neither inspects nor
changes any version field here: the installed value keeps the version it was
created with. -/
def WVarCore.Commit (core : WVarCore α) (val_p : WValue α) :
    WValue α × WVarCore α :=
  (core.m_value_p, { m_value_p := val_p })

/-- Per-variable slice of Internal::WTransactionData: the value recorded by a
get (the read-set snapshot) and the value recorded by a set (the pending
write).  The accessors GetVarGotValue / GetVarSetValue / SetVarGetValue /
SetVarValue declared at stm.h lines 443-453 are the evident field reads and
writes on these two slots. -/
structure WTransactionData (α : Type) where
  gotValue : Option (WValue α)
  setValue : Option (WValue α)
  deriving Repr, DecidableEq

/-- A transaction in which the variable has been neither read nor written. -/
def WTransactionData.empty (α : Type) : WTransactionData α :=
  { gotValue := none, setValue := none }

/-- Modelled from the spec: WAtomic::GetVarValue is implemented in stm.cpp,
which is not under src/.  Per its declaration comment (stm.h lines 441-443)
and the spec's get(cell) order, it yields the pending set value if present,
else the gotten snapshot, else null. -/
def WAtomic.GetVarValue (d : WTransactionData α) : Option (WValue α) :=
  match d.setValue with
  | some v => some v
  | none => d.gotValue

/-- WVar::Get (stm.h lines 891-903): if the transaction already holds a value
for this variable (set or got), return it; otherwise read the core under a
read lock, record the snapshot as the got value, and return it.  Returns the
value produced together with the updated transaction data. -/
def WVar.Get (core : WVarCore α) (d : WTransactionData α) :
    α × WTransactionData α :=
  match WAtomic.GetVarValue d with
  | some val_p => (val_p.m_value, d)
  | none =>
      (core.m_value_p.m_value, { d with gotValue := some core.m_value_p })

/-- WVar::Set (stm.h lines 942-963): if a pending value exists, mutate its
payload in place (its version is untouched); otherwise read the core's current
version under a brief read lock and insert a pending value with version
current + 1 holding a copy of the argument. -/
def WVar.Set (val : α) (core : WVarCore α) (d : WTransactionData α) :
    WTransactionData α :=
  match d.setValue with
  | some val_p =>
      { d with setValue := some { val_p with m_value := val } }
  | none =>
      { d with
        setValue := some ⟨core.m_value_p.m_version + 1, val⟩ }

/-- WVar::Validate (stm.h lines 985-998): fetch the got snapshot for this
variable; if one exists and WVarCore::Validate rejects it, throw
WFailedValidationException.  `true` means the call returns normally, `false`
that it throws. -/
def WVar.Validate (core : WVarCore α) (d : WTransactionData α) : Bool :=
  match d.gotValue with
  | some val_p => core.Validate val_p
  | none => true

/-- Modelled from the spec: the top-level commit of one transaction against one
cell.  WAtomic::Commit lives in stm.cpp, which is not under src/; per spec
section 4.4 the engine validates each read-set snapshot (conflict aborts the
commit) and then publishes each pending write via WVarCore::Commit; per the
data-model invariant a cell that is only in the write set has no snapshot and
its validation is skipped.  `none` is a conflict abort, `some` the committed
core. -/
def commitStep (core : WVarCore α) (d : WTransactionData α) :
    Option (WVarCore α) :=
  let publish : WVarCore α :=
    match d.setValue with
    | some val_p => (core.Commit val_p).2
    | none => core
  match d.gotValue with
  | some got_p => if core.Validate got_p then some publish else none
  | none => some publish

/-- Modelled from the spec: a cell together with its retry-waiter channel.
The core is WVarCore from stm.h; the wakers set lives in stm.cpp, which is
not under src/ (spec section 3: `wakers`: set of retry-waiters parked on
this cell).  Waiters are identified by thread ids, here plain naturals. -/
structure WCell (α : Type) where
  core : WVarCore α
  wakers : List Nat
  deriving Repr, DecidableEq

/-- Modelled from the spec: commit_write (spec section 4.1).  The value
replacement and prior-value return are WVarCore::Commit from stm.h; the
signalling of the waiters and their transfer off the channel are in stm.cpp,
which is not under src/.  Returns the prior value, the updated cell, and the
list of waiters signalled. -/
def commitWrite (c : WCell α) (val_p : WValue α) :
    WValue α × WCell α × List Nat :=
  let r := c.core.Commit val_p
  (r.1, { core := r.2, wakers := [] }, c.wakers)

/-- Modelled from the spec: WVar::GetInconsistent as specified (spec section
4.7) and as its own doc comment describes (stm.h lines 905-913): under a brief
shared read lock, return the cell's current value; no transaction record is
consulted or updated.  The body as written at stm.h line 917 names the type
Internal::WValue<Type_t>::ConstPtr, which is declared nowhere, so the source
text itself cannot be instantiated; this definition follows the documented
intent: copy the current value pointer and return its payload. -/
def WVar.GetInconsistent (core : WVarCore α) : α :=
  core.m_value_p.m_value

/-! Conflict-profiling recorder (src/src/conflict_profiling_internal.cpp). -/

namespace ConflictProfilingInternal

/-- Frames::FrameType: the tag of a frame written to the profiling pages. -/
inductive FrameType where
  | varName
  | commit
  | conflict
  | nameData
  deriving Repr, DecidableEq

/-- Frames::WTransaction (conflict_profiling_internal.cpp lines 60-70)
together with the `m_numVars` var pointers that follow it: one record that
WThreadData::TransactionEnd writes to the pages.  `const char*` name pointers
are `Option Nat` (null or a pointer identity); time points and the thread id
are naturals. -/
structure WTransactionFrame where
  m_type : FrameType
  m_name : Option Nat
  m_threadId : Nat
  m_threadName : Option Nat
  m_start : Nat
  m_end : Nat
  m_file : Option Nat
  m_line : Nat
  m_vars : List Nat
  deriving Repr, DecidableEq

/-- WThreadData (conflict_profiling_internal.cpp lines 324-495): the
per-thread recorder state.  The chain of WPage buffers is abstracted to the
sequence of frames written into it (the byte-level page arithmetic is modelled
separately by WPage below); the remaining fields follow the C++ members. -/
structure WThreadData where
  pages : List WTransactionFrame
  m_threadName : Option Nat
  m_curTransactionStart : Nat
  m_curTransactionFile : Option Nat
  m_curTransactionLine : Int
  m_curTransactionName : Option Nat
  m_inChildTransaction : Nat
  deriving Repr, DecidableEq

/-- WThreadData::NotInChildTransaction (conflict_profiling_internal.cpp lines
492-495): true iff the child-transaction counter is exactly one, i.e. the
thread is in a top-level transaction scope and not nested below it. -/
def WThreadData.NotInChildTransaction (d : WThreadData) : Bool :=
  d.m_inChildTransaction == 1

/-- WThreadData::TransactionEnd (conflict_profiling_internal.cpp lines
381-438): when not in a child transaction, append one WTransaction frame
carrying the current transaction's metadata and the given var pointers to the
pages; otherwise do nothing.  The split of the var array across page
boundaries in the source writes exactly `vars` in order, here a single list. -/
def WThreadData.TransactionEnd (d : WThreadData) (type : FrameType)
    (tEnd : Nat) (threadId : Nat) (vars : List Nat) : WThreadData :=
  if d.NotInChildTransaction then
    { d with
      pages := d.pages ++
        [{ m_type := type
           m_name := d.m_curTransactionName
           m_threadId := threadId
           m_threadName := d.m_threadName
           m_start := d.m_curTransactionStart
           m_end := tEnd
           m_file := d.m_curTransactionFile
           m_line := d.m_curTransactionLine.toNat
           m_vars := vars }] }
  else
    d

/-- WThreadData::Commit (conflict_profiling_internal.cpp lines 440-443):
TransactionEnd with the commit frame type and the set vars. -/
def WThreadData.Commit (d : WThreadData) (tEnd : Nat) (threadId : Nat)
    (setVars : List Nat) : WThreadData :=
  d.TransactionEnd FrameType.commit tEnd threadId setVars

/-- WThreadData::Conflict (conflict_profiling_internal.cpp lines 445-448):
TransactionEnd with the conflict frame type and the get vars. -/
def WThreadData.Conflict (d : WThreadData) (tEnd : Nat) (threadId : Nat)
    (getVars : List Nat) : WThreadData :=
  d.TransactionEnd FrameType.conflict tEnd threadId getVars

/-- WThreadData::NameTransaction (conflict_profiling_internal.cpp lines
450-457): only the top-level transaction can set the name; in a child
transaction scope the state is untouched. -/
def WThreadData.NameTransaction (d : WThreadData) (name : Option Nat) :
    WThreadData :=
  if d.NotInChildTransaction then
    { d with m_curTransactionName := name }
  else
    d

/-- WPage (conflict_profiling_internal.cpp lines 107-142): one profiling
buffer.  `m_used` counts the bytes handed out; `m_data` is the byte array of
length pageSize + 2 * pagePadding.  The constants pageSize and pagePadding are
defined in conflict_profiling_internal.h, which is not under src/, so they are
parameters of the operations below. -/
structure WPage where
  m_used : Nat
  m_data : List Nat
  deriving Repr, DecidableEq

/-- WPage::GetUsed (conflict_profiling_internal.cpp lines 120-123). -/
def WPage.GetUsed (p : WPage) : Nat :=
  p.m_used

/-- WPage::GetLeft (conflict_profiling_internal.cpp lines 125-128):
pageSize - m_used. -/
def WPage.GetLeft (pageSize : Nat) (p : WPage) : Nat :=
  pageSize - p.m_used

/-- WPage::Reserve (conflict_profiling_internal.cpp lines 130-142): if
numBytes fits in the space left, return the offset of the next free byte
(m_data.data() + pagePadding + m_used in the source, here the offset into
m_data) and advance m_used; otherwise return null (`none`) and change
nothing.  The page is returned alongside so that the no-change half is
explicit. -/
def WPage.Reserve (pageSize pagePadding : Nat) (p : WPage)
    (numBytes : Nat) : Option Nat × WPage :=
  if numBytes ≤ WPage.GetLeft pageSize p then
    (some (pagePadding + p.m_used), { p with m_used := p.m_used + numBytes })
  else
    (none, p)

end ConflictProfilingInternal

/-! Theorems settling the claims. -/

/-- C1 counterexample: it is not the case that every committed write installs
a version strictly greater than the one it replaces.  Concrete run: a cell
starts at version 0; transaction T1 does Set 10 without ever reading the cell,
capturing pending version 1; a concurrent transaction commits value 20,
advancing the cell to version 1; T1 then commits — validation is skipped
because T1 has no read snapshot — and installs version 1 over version 1, not a
strict increase. -/
theorem commit_version_strict_increase_refuted :
    ¬ (∀ (core core2 : WVarCore Nat) (d : WTransactionData Nat),
        d.setValue.isSome = true →
        commitStep core d = some core2 →
        core.m_value_p.m_version < core2.m_value_p.m_version) := by
  intro h
  have hlt :=
    h (WVarCore.mk (WValue.mk 1 20)) (WVarCore.mk (WValue.mk 1 10))
      (WVar.Set 10 (WVarCore.mk (WValue.mk 0 0)) (WTransactionData.empty Nat))
      (by decide) (by decide)
  exact absurd hlt (by decide)

/-- C1 (amended): a committed write whose pending value was created by Set
against the committing cell's current state — no concurrent commit slipped in
between the Set and the commit, and no earlier Set left a stale pending
version — installs a version strictly greater than the one it replaces. -/
theorem commit_version_strictly_increases (α : Type) (core core2 : WVarCore α)
    (d : WTransactionData α) (v : α)
    (hset : d.setValue = none)
    (hc : commitStep core (WVar.Set v core d) = some core2) :
    core.m_value_p.m_version < core2.m_value_p.m_version := by
  unfold WVar.Set at hc
  rw [hset] at hc
  unfold commitStep at hc
  cases hg : d.gotValue with
  | none =>
      simp only [hg, WVarCore.Commit] at hc
      cases hc
      exact Nat.lt_succ_self _
  | some g =>
      simp only [hg, WVarCore.Commit] at hc
      by_cases hv : core.Validate g = true
      · simp only [hv, if_true] at hc
        cases hc
        exact Nat.lt_succ_self _
      · simp only [hv] at hc
        simp at hc

/-- Witness for the amended C1 theorem at a concrete input: a cell at version
0 holding 5, a fresh transaction that sets 7, committing to version 1. -/
theorem commit_version_strictly_increases_witness :
    (WVarCore.mk (WValue.mk 0 5) : WVarCore Nat).m_value_p.m_version <
      (WVarCore.mk (WValue.mk 1 7) : WVarCore Nat).m_value_p.m_version :=
  commit_version_strictly_increases Nat (WVarCore.mk (WValue.mk 0 5))
    (WVarCore.mk (WValue.mk 1 7)) (WTransactionData.empty Nat) 7 rfl (by decide)

/-- C2 counterexample: commit-write does not increment the cell's version for
every pending value.  Concrete run: the pending value was produced by Set
against the cell at version 0, but by commit time the cell has advanced to
version 2; commit-write installs version 1, not 3. -/
theorem commit_write_increments_refuted :
    ¬ (∀ (c : WCell Nat) (core0 : WVarCore Nat) (v : Nat) (p : WValue Nat),
        (WVar.Set v core0 (WTransactionData.empty Nat)).setValue = some p →
        (commitWrite c p).2.1.core.m_value_p.m_version =
          c.core.m_value_p.m_version + 1) := by
  intro h
  have heq :=
    h (WCell.mk (WVarCore.mk (WValue.mk 2 30)) []) (WVarCore.mk (WValue.mk 0 0))
      10 (WValue.mk 1 10) (by decide)
  exact absurd heq (by decide)

/-- C2 (amended): commit-write under the exclusive commit lock replaces the
cell's current value with the pending value — so the cell's version becomes
the pending value's version, an increment exactly when the pending value was
built against the cell's current version — signals all retry-waiters parked on
the cell (transferring them off the channel), and returns the prior value. -/
theorem commit_write_spec (α : Type) (c : WCell α) (val_p : WValue α) :
    (commitWrite c val_p).1 = c.core.m_value_p ∧
    (commitWrite c val_p).2.1.core.m_value_p = val_p ∧
    (commitWrite c val_p).2.1.wakers = [] ∧
    (commitWrite c val_p).2.2 = c.wakers ∧
    (val_p.m_version = c.core.m_value_p.m_version + 1 →
      (commitWrite c val_p).2.1.core.m_value_p.m_version =
        c.core.m_value_p.m_version + 1) := by
  refine ⟨rfl, rfl, rfl, rfl, ?_⟩
  intro hv
  exact hv

/-- Witness for the C2 theorem at a concrete input: a cell at version 0 with
waiters 3 and 4, receiving pending version 1; the waiters are signalled. -/
theorem commit_write_spec_witness :
    (commitWrite (WCell.mk (WVarCore.mk (WValue.mk 0 5)) [3, 4])
        (WValue.mk 1 9)).2.2 = [3, 4] :=
  (commit_write_spec Nat (WCell.mk (WVarCore.mk (WValue.mk 0 5)) [3, 4])
    (WValue.mk 1 9)).2.2.2.1

/-- C3: WVarCore::Validate returns true if and only if the cell's current
version equals the snapshot's version. -/
theorem wvarcore_validate_iff (α : Type) (core : WVarCore α) (val : WValue α) :
    core.Validate val = true ↔
      core.m_value_p.m_version = val.m_version := by
  unfold WVarCore.Validate
  rw [beq_iff_eq]
  exact eq_comm

/-- C4: WVar::Get returns the pending value when the cell is in the write
set, else the cached snapshot's value when it is in the read set, else it
reads the cell, records the snapshot in the read set and returns that value;
and within one transaction a later Get returns the same value as an earlier
one whatever the cell holds by then, so the value can change between two Gets
only through an intervening Set. -/
theorem wvar_get_spec (α : Type) (core : WVarCore α) (d : WTransactionData α) :
    (∀ p, d.setValue = some p → WVar.Get core d = (p.m_value, d)) ∧
    (d.setValue = none → ∀ g, d.gotValue = some g →
      WVar.Get core d = (g.m_value, d)) ∧
    (d.setValue = none → d.gotValue = none →
      WVar.Get core d =
        (core.m_value_p.m_value, { d with gotValue := some core.m_value_p })) ∧
    (∀ core2 : WVarCore α,
      (WVar.Get core2 (WVar.Get core d).2).1 = (WVar.Get core d).1) := by
  refine ⟨?_, ?_, ?_, ?_⟩
  · intro p hp
    simp [WVar.Get, WAtomic.GetVarValue, hp]
  · intro hs g hg
    simp [WVar.Get, WAtomic.GetVarValue, hs, hg]
  · intro hs hg
    simp [WVar.Get, WAtomic.GetVarValue, hs, hg]
  · intro core2
    cases hs : d.setValue with
    | some p => simp [WVar.Get, WAtomic.GetVarValue, hs]
    | none =>
        cases hg : d.gotValue with
        | some g => simp [WVar.Get, WAtomic.GetVarValue, hs, hg]
        | none => simp [WVar.Get, WAtomic.GetVarValue, hs, hg]

/-- Witness for the C4 theorem at a concrete input: reading a fresh cell in a
fresh transaction returns the cell's value and records the snapshot. -/
theorem wvar_get_spec_witness :
    WVar.Get (WVarCore.mk (WValue.mk 0 5)) (WTransactionData.empty Nat) =
      (5, { gotValue := some (WValue.mk 0 5), setValue := none }) :=
  (wvar_get_spec Nat (WVarCore.mk (WValue.mk 0 5))
    (WTransactionData.empty Nat)).2.2.1 rfl rfl

/-- C5: WVar::Set mutates the pending value in place (its version untouched)
when the cell is already in the write set; otherwise it inserts a pending
entry whose version is the cell's current version plus one; in both cases the
stored payload is the given value (the source stores a copy, never a move,
because a transaction restart would leave a moved-from source unusable). -/
theorem wvar_set_spec (α : Type) (v : α) (core : WVarCore α)
    (d : WTransactionData α) :
    (∀ p, d.setValue = some p →
      WVar.Set v core d =
        { d with setValue := some { p with m_value := v } }) ∧
    (d.setValue = none →
      WVar.Set v core d =
        { d with
          setValue := some (WValue.mk (core.m_value_p.m_version + 1) v) }) ∧
    (∃ q, (WVar.Set v core d).setValue = some q ∧ q.m_value = v) ∧
    (WVar.Set v core d).gotValue = d.gotValue := by
  refine ⟨?_, ?_, ?_, ?_⟩
  · intro p hp
    simp [WVar.Set, hp]
  · intro hs
    simp [WVar.Set, hs]
  · cases hs : d.setValue with
    | some p => exact ⟨{ p with m_value := v }, by simp [WVar.Set, hs], rfl⟩
    | none =>
        exact ⟨WValue.mk (core.m_value_p.m_version + 1) v,
          by simp [WVar.Set, hs], rfl⟩
  · cases hs : d.setValue <;> simp [WVar.Set, hs]

/-- Witness for the C5 theorem at a concrete input: a second Set overwrites
the pending payload in place, keeping the pending version. -/
theorem wvar_set_spec_witness :
    WVar.Set 9 (WVarCore.mk (WValue.mk 4 0))
        { gotValue := none, setValue := some (WValue.mk 3 7) } =
      { gotValue := none, setValue := some (WValue.mk 3 9) } :=
  (wvar_set_spec Nat 9 (WVarCore.mk (WValue.mk 4 0))
    { gotValue := none, setValue := some (WValue.mk 3 7) }).1
    (WValue.mk 3 7) rfl

/-- C6: for a cell with a snapshot recorded in the transaction's read set,
WVar::Validate throws WFailedValidationException exactly when that snapshot is
stale, i.e. its version differs from the cell's current version (`false` is
the throwing outcome). -/
theorem wvar_validate_raises_iff_stale (α : Type) (core : WVarCore α)
    (d : WTransactionData α) (g : WValue α) (hg : d.gotValue = some g) :
    WVar.Validate core d = false ↔
      g.m_version ≠ core.m_value_p.m_version := by
  simp [WVar.Validate, hg, WVarCore.Validate]

/-- Witness for the C6 theorem at a concrete input: a snapshot at version 0
against a cell now at version 1 makes Validate throw. -/
theorem wvar_validate_raises_iff_stale_witness :
    WVar.Validate (WVarCore.mk (WValue.mk 1 6))
      { gotValue := some (WValue.mk 0 5), setValue := none } = false :=
  (wvar_validate_raises_iff_stale Nat (WVarCore.mk (WValue.mk 1 6))
    { gotValue := some (WValue.mk 0 5), setValue := none }
    (WValue.mk 0 5) rfl).mpr (by decide)

/-- C9: on a cell that was Set but never Get in the transaction, WVar::Validate
returns normally whatever the cell's current version is: Set leaves the read
snapshot absent and Validate checks only the read snapshot. -/
theorem wvar_validate_set_only_ok (α : Type) (v : α)
    (core0 core1 : WVarCore α) (d : WTransactionData α)
    (h : d.gotValue = none) :
    WVar.Validate core1 (WVar.Set v core0 d) = true := by
  cases hs : d.setValue <;> simp [WVar.Set, hs, WVar.Validate, h]

/-- Witness for the C9 theorem at a concrete input: the cell has raced ahead
to version 1000 since the Set captured version 1, yet Validate raises
nothing. -/
theorem wvar_validate_set_only_ok_witness :
    WVar.Validate (WVarCore.mk (WValue.mk 1000 0))
      (WVar.Set 7 (WVarCore.mk (WValue.mk 0 0))
        (WTransactionData.empty Nat)) = true :=
  wvar_validate_set_only_ok Nat 7 (WVarCore.mk (WValue.mk 0 0))
    (WVarCore.mk (WValue.mk 1000 0)) (WTransactionData.empty Nat) rfl

/-- C7: the documented behaviour of WVar::GetInconsistent, which the source
text cannot deliver because stm.h line 917 names the nonexistent type
Internal::WValue<Type_t>::ConstPtr: it returns the cell's current value, it
touches no transaction record (the modelled function takes none), and two
calls on the same cell straddling a commit can return different values — here
1 before and 2 after. -/
theorem get_inconsistent_model_spec :
    (∀ (core : WVarCore Nat),
      WVar.GetInconsistent core = core.m_value_p.m_value) ∧
    WVar.GetInconsistent (WVarCore.mk (WValue.mk 0 1)) = 1 ∧
    WVar.GetInconsistent
        ((WVarCore.mk (WValue.mk 0 1)).Commit (WValue.mk 1 2)).2 = 2 ∧
    WVar.GetInconsistent (WVarCore.mk (WValue.mk 0 1)) ≠
      WVar.GetInconsistent
        ((WVarCore.mk (WValue.mk 0 1)).Commit (WValue.mk 1 2)).2 := by
  exact ⟨fun _ => rfl, rfl, rfl, by decide⟩

/-- C8: while the thread is inside a child transaction (child counter at
least 2), TransactionEnd, Commit, Conflict and NameTransaction leave the
recorder state — page data included — unchanged; and a transaction-end event
appends var pointers to the pages only when the top-level transaction is the
one ending (child counter exactly 1). -/
theorem profiling_child_records_nothing
    (d : ConflictProfilingInternal.WThreadData)
    (type : ConflictProfilingInternal.FrameType)
    (tEnd threadId : Nat) (vars : List Nat) (name : Option Nat)
    (h : 2 ≤ d.m_inChildTransaction) :
    d.TransactionEnd type tEnd threadId vars = d ∧
    d.Commit tEnd threadId vars = d ∧
    d.Conflict tEnd threadId vars = d ∧
    d.NameTransaction name = d ∧
    (∀ (d2 : ConflictProfilingInternal.WThreadData)
        (type2 : ConflictProfilingInternal.FrameType)
        (e2 t2 : Nat) (vs : List Nat),
      (d2.TransactionEnd type2 e2 t2 vs).pages ≠ d2.pages →
      d2.m_inChildTransaction = 1) := by
  have hne : d.NotInChildTransaction = false := by
    unfold ConflictProfilingInternal.WThreadData.NotInChildTransaction
    rw [beq_eq_false_iff_ne]
    omega
  refine ⟨?_, ?_, ?_, ?_, ?_⟩
  · unfold ConflictProfilingInternal.WThreadData.TransactionEnd
    rw [hne]
    rfl
  · unfold ConflictProfilingInternal.WThreadData.Commit
      ConflictProfilingInternal.WThreadData.TransactionEnd
    rw [hne]
    rfl
  · unfold ConflictProfilingInternal.WThreadData.Conflict
      ConflictProfilingInternal.WThreadData.TransactionEnd
    rw [hne]
    rfl
  · unfold ConflictProfilingInternal.WThreadData.NameTransaction
    rw [hne]
    rfl
  · intro d2 type2 e2 t2 vs hpages
    by_contra hnot
    apply hpages
    unfold ConflictProfilingInternal.WThreadData.TransactionEnd
    have hne2 : d2.NotInChildTransaction = false := by
      unfold ConflictProfilingInternal.WThreadData.NotInChildTransaction
      rw [beq_eq_false_iff_ne]
      exact hnot
    rw [hne2]
    rfl

/-- Witness for the C8 theorem at a concrete input: a recorder two levels deep
in child transactions ignores a commit event. -/
theorem profiling_child_records_nothing_witness :
    ConflictProfilingInternal.WThreadData.Commit
      (ConflictProfilingInternal.WThreadData.mk [] none 0 none 0 none 2)
      5 9 [1, 2] =
    ConflictProfilingInternal.WThreadData.mk [] none 0 none 0 none 2 :=
  (profiling_child_records_nothing
    (ConflictProfilingInternal.WThreadData.mk [] none 0 none 0 none 2)
    ConflictProfilingInternal.FrameType.commit 5 9 [1, 2] none
    (by decide)).2.1

/-- C10: WPage::Reserve, given a page whose used count respects the page size,
returns a non-null offset lying inside the page's data area and advances the
used count by exactly numBytes whenever numBytes fits in the space left, and
otherwise returns null with the used count and the page contents untouched
(the contents are untouched in both cases: Reserve only hands out space). -/
theorem wpage_reserve_spec (pageSize pagePadding : Nat)
    (p : ConflictProfilingInternal.WPage) (numBytes : Nat)
    (hinv : p.m_used ≤ pageSize) :
    (numBytes ≤ pageSize - p.m_used →
      (ConflictProfilingInternal.WPage.Reserve pageSize pagePadding p
          numBytes).1 = some (pagePadding + p.m_used) ∧
      pagePadding + p.m_used + numBytes ≤ pagePadding + pageSize ∧
      (ConflictProfilingInternal.WPage.Reserve pageSize pagePadding p
          numBytes).2.m_used = p.m_used + numBytes ∧
      (ConflictProfilingInternal.WPage.Reserve pageSize pagePadding p
          numBytes).2.m_data = p.m_data) ∧
    (¬ numBytes ≤ pageSize - p.m_used →
      (ConflictProfilingInternal.WPage.Reserve pageSize pagePadding p
          numBytes).1 = none ∧
      (ConflictProfilingInternal.WPage.Reserve pageSize pagePadding p
          numBytes).2 = p) := by
  constructor
  · intro hfit
    unfold ConflictProfilingInternal.WPage.Reserve
      ConflictProfilingInternal.WPage.GetLeft
    rw [if_pos hfit]
    exact ⟨rfl, by omega, rfl, rfl⟩
  · intro hbig
    unfold ConflictProfilingInternal.WPage.Reserve
      ConflictProfilingInternal.WPage.GetLeft
    rw [if_neg hbig]
    exact ⟨rfl, rfl⟩

/-- Witness for the C10 theorem at a concrete input: a page of size 8 with 3
bytes used and padding 2 grants a 4-byte reservation at offset 5. -/
theorem wpage_reserve_spec_witness :
    (ConflictProfilingInternal.WPage.Reserve 8 2
        (ConflictProfilingInternal.WPage.mk 3 [0, 0]) 4).1 = some 5 :=
  ((wpage_reserve_spec 8 2 (ConflictProfilingInternal.WPage.mk 3 [0, 0]) 4
    (by decide)).1 (by decide)).1

end WSTM
